import Mathlib

/-!
# Verification of the gluon bioreactor control core

Shallow embedding of the scheduler / PID / balanced-flow / sensor-IO slice of
the `src/` package (`src/io.py`, `src/utils.py`, `src/bioreactor.py`).

Modelling conventions:
* Python floats are modelled as `Fl` (NaN or an exact rational); the control
  code only ever branches on NaN-ness, comparisons and exact arithmetic.
* A Python dictionary attribute that may be absent (`hasattr`) is an `Option`;
  dictionary lookups with defaults use `List.lookup` plus `Option.getD`.
* A hardware call that may raise and whose exception is caught at the call
  site is an `Except Unit _` (or a `Bool` success flag for driver shims),
  supplied as an oracle field of the state.
* Wall-clock time is abstracted: the OD sampling loop's collected readings and
  the scheduler's tick clock are explicit parameters.
-/

/-- A Python float as the control code distinguishes it: NaN or a numeric
value (modelled as an exact rational). -/
inductive Fl where
  | nan : Fl
  | val (x : ℚ) : Fl
deriving DecidableEq

/-- `math.isnan` / `np.isnan`. -/
def Fl.isNaN : Fl → Bool
  | .nan => true
  | .val _ => false

/-- Float subtraction: NaN-propagating, exact on numeric values. -/
def Fl.sub : Fl → Fl → Fl
  | .val a, .val b => .val (a - b)
  | _, _ => .nan

/-- Python `int(q)`: truncation toward zero. -/
def pytrunc (q : ℚ) : ℤ := if 0 ≤ q then ⌊q⌋ else ⌈q⌉

/-- Python `max` on two floats (kernel-computable form). -/
def pymax (a b : ℚ) : ℚ := if a ≤ b then b else a

/-- Python `min` on two floats (kernel-computable form). -/
def pymin (a b : ℚ) : ℚ := if a ≤ b then a else b

/-- Python `abs` on a float (kernel-computable form). -/
def pyabs (q : ℚ) : ℚ := if q < 0 then -q else q

/-- Python `max` on two ints (kernel-computable form). -/
def imax (a b : ℤ) : ℤ := if a ≤ b then b else a

/-- Python `min` on two ints (kernel-computable form). -/
def imin (a b : ℤ) : ℤ := if a ≤ b then a else b

deriving instance DecidableEq for Except

/-- Python `str.lower` (ASCII case folding, kernel-computable form). -/
def strLower (s : String) : String := String.mk (s.data.map Char.toLower)

/-- Python `str.endswith`. -/
def strEndsWith (s suffix : String) : Bool := suffix.data.isSuffixOf s.data

/-- Python `'_' in s`. -/
def strHasUnderscore (s : String) : Bool := s.data.contains '_'

/-- Python `s.rsplit('_', 1)[0]`: everything before the last underscore
(the whole string when there is none). -/
def rsplitHead (s : String) : String :=
  match s.data.reverse.dropWhile (fun c => c ≠ '_') with
  | [] => s
  | _ :: rest => String.mk rest.reverse

/-! ## Device driver shims (`src/io.py`, classes) -/

/-- `PeltierDriver` (PWM/DIR controller). `lgpio_ok` models whether
`import lgpio` succeeds, `hw_ok` whether the GPIO write/PWM update succeeds. -/
structure PeltierDriver where
  lgpio_ok : Bool
  hw_ok : Bool
  last_duty : ℚ
  last_forward : Bool
deriving DecidableEq

/-- `PeltierDriver.set`: clamp the duty cycle to `[0, 100]`, update the PWM
output and remember the commanded state; `False` on hardware failure. -/
def PeltierDriver.set (d : PeltierDriver) (duty_cycle : ℚ) (forward : Bool) :
    PeltierDriver × Bool :=
  if ¬ d.lgpio_ok then (d, false)
  else
    let duty := pymax 0 (pymin 100 duty_cycle)
    if ¬ d.hw_ok then (d, false)
    else ({ d with last_duty := duty, last_forward := forward }, true)

/-- `StirrerDriver` (single-pin PWM). -/
structure StirrerDriver where
  lgpio_ok : Bool
  hw_ok : Bool
  duty : ℚ
deriving DecidableEq

/-- `StirrerDriver.set_speed`. -/
def StirrerDriver.set_speed (d : StirrerDriver) (duty_cycle : ℚ) :
    StirrerDriver × Bool :=
  if ¬ d.lgpio_ok then (d, false)
  else
    let duty := pymax 0 (pymin 100 duty_cycle)
    if ¬ d.hw_ok then (d, false)
    else ({ d with duty := duty }, true)

/-- `LEDDriver` (PWM LED). -/
structure LEDDriver where
  lgpio_ok : Bool
  hw_ok : Bool
  power : ℚ
deriving DecidableEq

/-- `LEDDriver.set_power`. -/
def LEDDriver.set_power (d : LEDDriver) (power : ℚ) : LEDDriver × Bool :=
  if ¬ d.lgpio_ok then (d, false)
  else
    let p := pymax 0 (pymin 100 power)
    if ¬ d.hw_ok then (d, false)
    else ({ d with power := p }, true)

/-- `LEDDriver.off`: 0% power; failures are caught and leave the state. -/
def LEDDriver.off (d : LEDDriver) : LEDDriver :=
  if d.lgpio_ok ∧ d.hw_ok then { d with power := 0 } else d

/-- `RingLightDriver` (neopixel ring). `ensure_ok` models whether
`_ensure_initialized` succeeds, `hw_ok` whether strip updates succeed. -/
structure RingLightDriver where
  ensure_ok : Bool
  hw_ok : Bool
  num_leds : ℤ
  current_color : ℤ × ℤ × ℤ
  is_on : Bool
deriving DecidableEq

/-- `RingLightDriver.set_color`: clamp each channel to `[0, 255]`, update the
strip (all pixels, or one with a bounds check) and record the color. -/
def RingLightDriver.set_color (rl : RingLightDriver) (color : ℤ × ℤ × ℤ)
    (pixel : Option ℤ) : RingLightDriver × Bool :=
  if ¬ rl.ensure_ok then (rl, false)
  else
    let r := imax 0 (imin 255 color.1)
    let g := imax 0 (imin 255 color.2.1)
    let b := imax 0 (imin 255 color.2.2)
    match pixel with
    | none =>
      if ¬ rl.hw_ok then (rl, false)
      else ({ rl with current_color := (r, g, b),
                      is_on := decide (0 < r ∨ 0 < g ∨ 0 < b) }, true)
    | some p =>
      if p < 0 ∨ rl.num_leds ≤ p then (rl, false)
      else if ¬ rl.hw_ok then (rl, false)
      else ({ rl with current_color := (r, g, b),
                      is_on := decide (0 < r ∨ 0 < g ∨ 0 < b) }, true)

/-- `RingLightDriver.off`: all pixels to black; failures leave the state. -/
def RingLightDriver.off (rl : RingLightDriver) : RingLightDriver :=
  if ¬ rl.ensure_ok then rl
  else if ¬ rl.hw_ok then rl
  else { rl with current_color := (0, 0, 0), is_on := false }

/-! ## Configuration records -/

/-- Per-pump configuration dict (`pump_configs[name]`); either key may be
missing (`dict.get` defaults apply in `change_pump`). -/
structure PumpCfg where
  direction : Option String
  steps_per_ml : Option ℚ
deriving DecidableEq

/-- One eyespy ADS1114 board: its gain and the oracle result of calling the
read function on it (`none` models a raised-and-caught exception or a missing
reading). -/
structure EyespyBoard where
  gain : ℚ
  read_result : Option ℤ
deriving DecidableEq

/-- `co2_sensor_config` dict. `sensair_result` / the inner option of
`atlas_device` are oracles for the low-level bus reads (`none` = failed). -/
structure Co2Cfg where
  ctype : Option String
  i2c_address : Option ℤ
  i2c_bus : Option ℤ
  atlas_device : Option (Option ℤ)
  sensair_result : Option ℤ
deriving DecidableEq

/-- `o2_sensor_config` dict: the Atlas device (`none` = absent) and its read
result. -/
structure O2Cfg where
  atlas_device : Option (Option ℚ)
deriving DecidableEq

/-! ## The bioreactor state (`src/bioreactor.py` instance attributes) -/

/-- The mutable bioreactor instance: the `_initialized` component dict plus
every attribute the IO layer probes with `hasattr` (absent = `none`).
`temp_sensors` holds, per sensor, the oracle outcome of
`sensor.get_temperature()`; `od_channels` holds, per ADC channel, the oracle
outcome of reading `channel.voltage` (`Except.error` = exception, caught at
the read site). -/
structure Bioreactor where
  initialized : List (String × Bool)
  temp_sensors : Option (List (Except Unit Fl))
  od_channels : Option (List (String × Except Unit ℚ))
  led_driver : Option LEDDriver
  ring_light_driver : Option RingLightDriver
  peltier_driver : Option PeltierDriver
  stirrer_driver : Option StirrerDriver
  eyespy_boards : Option (List (String × EyespyBoard))
  eyespy_read_func : Bool
  co2_sensor_config : Option Co2Cfg
  o2_sensor_config : Option O2Cfg
  pumps : Option (List String)
  pump_configs : List (String × PumpCfg)

/-- `Bioreactor.is_component_initialized`: probe the `_initialized` dict,
defaulting to `False`. -/
def is_component_initialized (br : Bioreactor) (component_name : String) : Bool :=
  (br.initialized.lookup component_name).getD false

/-! ## Simple sensor reads and actuator writes (`src/io.py`) -/

/-- `read_voltage`: OD ADC channel read; `None` when the sensor is
uninitialized, the channel dict is missing, the channel is unknown, or the
read raises (caught). -/
def read_voltage (br : Bioreactor) (channel_name : String) : Option ℚ :=
  if ¬ is_component_initialized br "optical_density" then none
  else match br.od_channels with
    | none => none
    | some chans =>
      match chans.lookup channel_name with
      | none => none
      | some (.error _) => none
      | some (.ok v) => some v

/-- `set_led`: `False` when the LED component is uninitialized or the driver
attribute is missing; otherwise delegate to the driver shim (whose failures
are caught and reported as `False`). -/
def set_led (br : Bioreactor) (power : ℚ) : Bioreactor × Bool :=
  if ¬ is_component_initialized br "led" then (br, false)
  else match br.led_driver with
    | none => (br, false)
    | some drv =>
      let r := drv.set_power power
      ({ br with led_driver := some r.1 }, r.2)

/-- `set_ring_light`. -/
def set_ring_light (br : Bioreactor) (color : ℤ × ℤ × ℤ) (pixel : Option ℤ) :
    Bioreactor × Bool :=
  if ¬ is_component_initialized br "ring_light" then (br, false)
  else match br.ring_light_driver with
    | none => (br, false)
    | some drv =>
      let r := drv.set_color color pixel
      ({ br with ring_light_driver := some r.1 }, r.2)

/-- `turn_off_ring_light`: silent no-op when uninitialized or absent. -/
def turn_off_ring_light (br : Bioreactor) : Bioreactor :=
  if ¬ is_component_initialized br "ring_light" then br
  else match br.ring_light_driver with
    | none => br
    | some drv => { br with ring_light_driver := some drv.off }

/-- `get_temperature`: NaN when the sensor component is uninitialized, the
index is unavailable, or the read raises; a successful numeric reading outside
`[0, 100]` °C is discarded and replaced by NaN. -/
def get_temperature (br : Bioreactor) (sensor_index : ℕ) : Fl :=
  if ¬ is_component_initialized br "temp_sensor" then .nan
  else match br.temp_sensors with
    | none => .nan
    | some sensors =>
      match sensors[sensor_index]? with
      | none => .nan
      | some (.error _) => .nan
      | some (.ok t) =>
        match t with
        | .nan => .nan
        | .val x => if x < 0 ∨ 100 < x then .nan else .val x

/-- The `forward: Union[bool, str]` argument of `set_peltier_power`. -/
inductive FwdArg where
  | ofBool (b : Bool)
  | ofStr (s : String)
deriving DecidableEq

/-- `set_peltier_power`: resolve the direction argument (descriptive strings
map onto the DIR pin polarity), then delegate to the driver shim. -/
def set_peltier_power (br : Bioreactor) (duty_cycle : ℚ) (forward : FwdArg) :
    Bioreactor × Bool :=
  match br.peltier_driver with
  | none => (br, false)
  | some drv =>
    if ¬ is_component_initialized br "peltier_driver" then (br, false)
    else
      let forward_bool :=
        match forward with
        | .ofBool b => b
        | .ofStr s =>
          let f := strLower s
          if f = "forward" ∨ f = "cool" ∨ f = "cold" then true
          else if f = "reverse" ∨ f = "heat" ∨ f = "warm" ∨ f = "hot" then false
          else decide (f = "true" ∨ f = "1" ∨ f = "on")
      let r := drv.set duty_cycle forward_bool
      ({ br with peltier_driver := some r.1 }, r.2)

/-- `set_stirrer_speed`. -/
def set_stirrer_speed (br : Bioreactor) (duty_cycle : ℚ) : Bioreactor × Bool :=
  match br.stirrer_driver with
  | none => (br, false)
  | some drv =>
    if ¬ is_component_initialized br "stirrer" then (br, false)
    else
      let r := drv.set_speed duty_cycle
      ({ br with stirrer_driver := some r.1 }, r.2)

/-- `read_eyespy_adc`: board-name resolution (default to the sole board) and
the raw oracle read; every failure is reported as `None`. -/
def read_eyespy_adc (br : Bioreactor) (board_name : Option String) : Option ℤ :=
  if ¬ is_component_initialized br "eyespy_adc" then none
  else match br.eyespy_boards with
    | none => none
    | some boards =>
      if boards = [] then none
      else
        let resolved : Option String :=
          match board_name with
          | some n => some n
          | none => if boards.length = 1 then some (boards.map Prod.fst).head! else none
        match resolved with
        | none => none
        | some n =>
          match boards.lookup n with
          | none => none
          | some board =>
            if ¬ br.eyespy_read_func then none
            else board.read_result

/-- `read_co2`: dispatch on the configured sensor type; the low-level bus
reads are oracles in the config. -/
def read_co2 (br : Bioreactor) : Option ℤ :=
  if ¬ is_component_initialized br "co2_sensor" then none
  else match br.co2_sensor_config with
    | none => none
    | some cfg =>
      let sensor_type := strLower (cfg.ctype.getD "sensair_k33")
      match cfg.i2c_address with
      | none => none
      | some _ =>
        if "sensair".data.isPrefixOf sensor_type.data then
          match cfg.i2c_bus with
          | none => none
          | some _ => cfg.sensair_result
        else if "atlas".data.isPrefixOf sensor_type.data then
          match cfg.atlas_device with
          | none => none
          | some r => r
        else none

/-- `read_o2`. -/
def read_o2 (br : Bioreactor) : Option ℚ :=
  if ¬ is_component_initialized br "o2_sensor" then none
  else match br.o2_sensor_config with
    | none => none
    | some cfg =>
      match cfg.atlas_device with
      | none => none
      | some r => r

/-! ## Pumps (`change_pump`, `src/io.py`) -/

/-- A stepper-driver command issued to a pump object. -/
inductive PumpCmd where
  | energize
  | exit_safe_start
  | set_target_velocity (v : ℤ)
  | deenergize
deriving DecidableEq

/-- The `ValueError`s `change_pump` can raise. -/
inductive PumpErr where
  | no_such_pump
  | negative_rate
  | bad_direction
deriving DecidableEq

/-- The ml/sec → signed steps/sec conversion of `change_pump`:
`steps_per_sec = 8 * int(ml_per_sec * steps_per_ml / 8)`, positive for
`'forward'`, negated otherwise. -/
def pumpVelocity (direction : String) (ml_per_sec steps_per_ml : ℚ) : ℤ :=
  let steps_per_sec := 8 * pytrunc (ml_per_sec * steps_per_ml / 8)
  if direction = "forward" then steps_per_sec else -steps_per_sec

/-- The actuator command sequence `change_pump` issues for a computed
velocity: de-energize at exactly zero, otherwise energize / exit safe start /
set target velocity. -/
def velocityCmds (pump_name : String) (velocity : ℤ) : List (String × PumpCmd) :=
  if velocity = 0 then [(pump_name, .deenergize)]
  else [(pump_name, .energize), (pump_name, .exit_safe_start),
        (pump_name, .set_target_velocity velocity)]

/-- `change_pump`: validation (pump exists, non-negative rate, known
direction), per-pump calibration with defaults, conversion, and the actuator
command sequence. A raised `ValueError` is an `Except.error`; the silent
return when the pump component is uninitialized is `.ok []` (no commands).
Actuator calls themselves are treated as reliable external collaborators. -/
def change_pump (br : Bioreactor) (pump_name : String) (ml_per_sec : ℚ)
    (direction : Option String) : Except PumpErr (List (String × PumpCmd)) :=
  if ¬ is_component_initialized br "pumps" then .ok []
  else match br.pumps with
    | none => .error .no_such_pump
    | some ps =>
      if pump_name ∉ ps then .error .no_such_pump
      else if ml_per_sec < 0 then .error .negative_rate
      else
        let cfg := (br.pump_configs.lookup pump_name).getD ⟨none, none⟩
        let pump_direction : Except PumpErr String :=
          match direction with
          | some d =>
            if d ≠ "forward" ∧ d ≠ "reverse" then .error .bad_direction else .ok d
          | none =>
            let d := cfg.direction.getD "forward"
            if d ≠ "forward" ∧ d ≠ "reverse" then .error .bad_direction else .ok d
        match pump_direction with
        | .error e => .error e
        | .ok d =>
          let steps_per_ml := cfg.steps_per_ml.getD 10000000
          .ok (velocityCmds pump_name (pumpVelocity d ml_per_sec steps_per_ml))

/-! ## Balanced flow (`balanced_flow`, `src/utils.py`) -/

/-- The observable outcome of one `balanced_flow` call: the actuator commands
issued and how many exceptions were raised by `change_pump` and caught (and
logged) by `balanced_flow`'s own handlers. -/
structure BFOut where
  cmds : List (String × PumpCmd)
  caught : ℕ
deriving DecidableEq

/-- One `try:` block of `balanced_flow` executing a sequence of
`change_pump(name, rate)` calls: stops at the first raised exception, which
the surrounding `except` catches and logs; commands already issued stand. -/
def tryChangePumps (br : Bioreactor) : List (String × ℚ) → List (String × PumpCmd) × ℕ
  | [] => ([], 0)
  | (p, ml) :: rest =>
    match change_pump br p ml none with
    | .error _ => ([], 1)
    | .ok cmds =>
      let r := tryChangePumps br rest
      (cmds ++ r.1, r.2)

/-- The converse-pump-name inference of `balanced_flow`:
`inflow ↔ outflow`, then the `_in`/`_inflow`/`_out`/`_outflow` suffix
heuristics; `none` when no convention matches (degraded single-pump mode). -/
def conversePumpName (pump_name : String) : Option String :=
  if pump_name = "inflow" then some "outflow"
  else if pump_name = "outflow" then some "inflow"
  else if strEndsWith pump_name "_in" ∨ strEndsWith pump_name "_inflow" then
    let base := if strHasUnderscore pump_name then rsplitHead pump_name else pump_name
    some (if ¬ strEndsWith base "out" then base ++ "_out" else base ++ "_outflow")
  else if strEndsWith pump_name "_out" ∨ strEndsWith pump_name "_outflow" then
    let base := if strHasUnderscore pump_name then rsplitHead pump_name else pump_name
    some (if ¬ strEndsWith base "in" then base ++ "_in" else base ++ "_inflow")
  else none

/-- `balanced_flow`: set the named pump and its converse to the same rate,
optionally stopping both after a (slept-through) duration. Every
`change_pump` call site is inside a `try/except` that logs and swallows the
exception, so no error ever escapes to the caller; the `Except` return is
kept to state exactly that as a theorem. -/
def balanced_flow (br : Bioreactor) (pump_name : String) (ml_per_sec : ℚ)
    (duration : Option ℚ) : Except PumpErr BFOut :=
  if ¬ is_component_initialized br "pumps" then .ok ⟨[], 0⟩
  else match br.pumps with
    | none => .ok ⟨[], 0⟩
    | some ps =>
      let stopCalls : List (String × ℚ) :=
        match duration with
        | some d => if 0 < d then [(pump_name, 0)] else []
        | none => []
      match conversePumpName pump_name with
      | none =>
        let r := tryChangePumps br ((pump_name, ml_per_sec) :: stopCalls)
        .ok ⟨r.1, r.2⟩
      | some converse_name =>
        if pump_name ∉ ps then .ok ⟨[], 0⟩
        else if converse_name ∉ ps then
          let r := tryChangePumps br ((pump_name, ml_per_sec) :: stopCalls)
          .ok ⟨r.1, r.2⟩
        else
          let bothStops : List (String × ℚ) :=
            match duration with
            | some d => if 0 < d then [(pump_name, 0), (converse_name, 0)] else []
            | none => []
          let r := tryChangePumps br
            ([(pump_name, ml_per_sec), (converse_name, ml_per_sec)] ++ bothStops)
          .ok ⟨r.1, r.2⟩

/-! ## Temperature PID controller (`temperature_pid_controller`, `src/utils.py`) -/

/-- The PID state `temperature_pid_controller` keeps on the bioreactor
instance (`_temp_integral`, `_temp_last_error`, `_temp_last_time`,
`_temp_last_derivative`); the `hasattr` auto-initialisation corresponds to
starting from `⟨0, 0, none, 0⟩`. -/
structure PIDState where
  temp_integral : ℚ
  temp_last_error : ℚ
  temp_last_time : Option ℚ
  temp_last_derivative : ℚ
deriving DecidableEq

/-- The `'heat'` / `'cool'` direction string passed to the peltier. -/
inductive Direction where
  | heat
  | cool
deriving DecidableEq

/-- The actuator command issued by one PID step: `set_peltier_power(duty,
direction)` or `stop_peltier()`. -/
inductive PeltierCmd where
  | set (duty : ℚ) (direction : Direction)
  | stop
deriving DecidableEq

/-- The non-NaN update block of `temperature_pid_controller` (source lines
546-590): integral accumulation (unclamped), low-pass-filtered derivative,
PID output, duty clamp to `[0, max_duty]`, heat/cool direction, and the
peltier command (`stop` at zero duty; nothing when the peltier component is
uninitialized); persists `last_error` last. -/
def pidCompute (st1 : PIDState) (peltier_init : Bool)
    (e kp ki kd dt max_duty derivative_alpha : ℚ) : PIDState × Option PeltierCmd :=
  let integral := st1.temp_integral + e * dt
  let raw_derivative := if 0 < dt then (e - st1.temp_last_error) / dt else 0
  let derivative := derivative_alpha * st1.temp_last_derivative +
    (1 - derivative_alpha) * raw_derivative
  let output := kp * e + ki * integral + kd * derivative
  let duty := pymax 0 (pymin max_duty (pyabs output))
  let direction := if 0 < output then Direction.heat else Direction.cool
  let cmd : Option PeltierCmd :=
    if peltier_init then
      some (if 0 < duty then .set duty direction else .stop)
    else none
  ({ st1 with temp_integral := integral, temp_last_derivative := derivative,
              temp_last_error := e }, cmd)

/-- `temperature_pid_controller`: one invocation. `current_temp_arg` is the
optional `current_temp` argument; when `none` the controller reads
`sensor_value` (= `get_temperature`'s result). `dt_arg`/`elapsed`/`time_now`
mirror the `dt`/`elapsed`/`time.time()` bookkeeping. Returns the updated PID
state and the actuator command issued (none on the NaN-skip path or when the
peltier component is uninitialized). -/
def temperature_pid_controller (st : PIDState) (peltier_init : Bool)
    (setpoint : Fl) (current_temp_arg : Option Fl) (sensor_value : Fl)
    (kp ki kd : ℚ) (dt_arg : Option ℚ) (elapsed : Option ℚ) (time_now : ℚ)
    (max_duty : ℚ) (derivative_alpha : ℚ) : PIDState × Option PeltierCmd :=
  let current_temp := current_temp_arg.getD sensor_value
  let error := setpoint.sub current_temp
  let dtst : ℚ × PIDState :=
    match dt_arg with
    | none =>
      let current_time := elapsed.getD time_now
      match st.temp_last_time with
      | some lt => (current_time - lt, { st with temp_last_time := some current_time })
      | none => (1, { st with temp_last_time := some current_time })
    | some d =>
      match elapsed with
      | some e => (d, { st with temp_last_time := some e })
      | none => (d, st)
  let dt := dtst.1
  let st1 := dtst.2
  if error.isNaN || current_temp.isNaN then (st1, none)
  else
    match error with
    | .nan => (st1, none)
    | .val e => pidCompute st1 peltier_init e kp ki kd dt max_duty derivative_alpha

/-! ## Optical-density measurement (`measure_od`, `src/io.py`) -/

/-- `measure_od`'s return value: a single averaged voltage, or a dict of
averaged voltages per channel/board. -/
inductive MeasureResult where
  | single (v : ℚ)
  | multi (results : List (String × ℚ))
deriving DecidableEq

/-- `sum(l) / len(l)` of the collected readings; `none` when none were
collected. -/
def avgList (l : List ℚ) : Option ℚ :=
  if l = [] then none else some (l.sum / (l.length : ℚ))

/-- The ring-light restore step of `measure_od` (run on the success path and,
wrapped in a `try`, inside the `except` handler): re-apply the saved color if
the ring was on, else force it off. -/
def restoreRingLight (br : Bioreactor) (was_on : Bool) (prev : ℤ × ℤ × ℤ) :
    Bioreactor :=
  if ¬ is_component_initialized br "ring_light" then br
  else match br.ring_light_driver with
    | none => br
    | some rl =>
      if was_on then { br with ring_light_driver := some (rl.set_color prev none).1 }
      else { br with ring_light_driver := some rl.off }

/-- `measure_od`: guards, ring-light save-and-dodge, LED pulse, the averaging
of the collected readings, LED off, ring-light restore, result assembly.
The wall-clock sampling loop is abstracted: `od_samples` / `eyespy_samples`
are the reading lists it collected per channel/board, and `body_raises`
models an exception raised inside the `try` block after the LED was set
(handled by the `except` clause: best-effort LED off, ring-light restore,
return `None`). Note the early `return None` when `set_led` reports failure,
which skips the restore. -/
def measure_od (br : Bioreactor) (led_power : ℚ) (channel_name : String)
    (od_samples eyespy_samples : List (String × List ℚ)) (body_raises : Bool) :
    Bioreactor × Option MeasureResult :=
  if ¬ is_component_initialized br "led" then (br, none)
  else
    let od_initialized := is_component_initialized br "optical_density"
    let eyespy_initialized := is_component_initialized br "eyespy_adc"
    if ¬ od_initialized ∧ ¬ eyespy_initialized then (br, none)
    else if od_initialized ∧ strLower channel_name = "all" ∧
        (br.od_channels.getD []).isEmpty then (br, none)
    else
      let channels_to_measure : List String :=
        if od_initialized then
          if strLower channel_name = "all" then (br.od_channels.getD []).map Prod.fst
          else [channel_name]
        else []
      let eyespy_boards : List String :=
        if eyespy_initialized then (br.eyespy_boards.getD []).map Prod.fst else []
      let ringSave : Bool × (ℤ × ℤ × ℤ) × Bioreactor :=
        if is_component_initialized br "ring_light" then
          match br.ring_light_driver with
          | some rl => (rl.is_on, rl.current_color,
              { br with ring_light_driver := some rl.off })
          | none => (false, (0, 0, 0), br)
        else (false, (0, 0, 0), br)
      let ring_light_was_on := ringSave.1
      let ring_light_previous_color := ringSave.2.1
      let br1 := ringSave.2.2
      let ledSet := set_led br1 led_power
      let br2 := ledSet.1
      if ¬ ledSet.2 then (br2, none)
      else if body_raises then
        let br3 := { br2 with led_driver := br2.led_driver.map LEDDriver.off }
        (restoreRingLight br3 ring_light_was_on ring_light_previous_color, none)
      else
        match br2.led_driver with
        | none =>
          (restoreRingLight br2 ring_light_was_on ring_light_previous_color, none)
        | some led =>
          let br3 := { br2 with led_driver := some led.off }
          let br4 := restoreRingLight br3 ring_light_was_on ring_light_previous_color
          let od_results : List (String × Option ℚ) :=
            channels_to_measure.map
              (fun ch => (ch, avgList ((od_samples.lookup ch).getD [])))
          let ey_results : List (String × Option ℚ) :=
            eyespy_boards.map
              (fun b => (b, avgList ((eyespy_samples.lookup b).getD [])))
          let results := od_results ++ ey_results
          if strLower channel_name = "all" ∨ eyespy_boards ≠ [] then
            let valid := results.filterMap (fun kv => kv.2.map (fun v => (kv.1, v)))
            if valid = [] then (br4, none) else (br4, some (.multi valid))
          else
            match results.lookup channel_name with
            | some (some v) => (br4, some (.single v))
            | _ => (br4, none)

/-! ## Job scheduler (`Bioreactor.run` / `thread_worker`, `src/bioreactor.py`) -/

/-- What one scheduler lane did: how many times it invoked its action, and
how many exceptions the action raised that the lane's `try/except` caught
(and logged). -/
structure LaneResult where
  invocations : ℕ
  caught_errors : ℕ
deriving DecidableEq

/-- `thread_worker`: one lane's loop, on a discretised clock. The action at
elapsed time `t` either returns or raises (`Except.error`), and a raised
exception is caught and logged — the loop then proceeds to its next tick at
`t + freq` exactly as on success. `dur` is the finite duration bound;
`fuel` bounds the iteration count (take `fuel ≥ dur` for `freq ≥ 1`). The
shared stop event is never set while `run` is active (`stop_all` not
called), so it does not appear. -/
def thread_worker (action : ℕ → Except String Unit) (freq dur : ℕ) :
    ℕ → ℕ → LaneResult
  | 0, _ => ⟨0, 0⟩
  | fuel + 1, t =>
    if t < dur then
      let caught := match action t with | .ok _ => 0 | .error _ => 1
      let rest := thread_worker action freq dur fuel (t + freq)
      ⟨rest.invocations + 1, rest.caught_errors + caught⟩
    else ⟨0, 0⟩

/-- `Bioreactor.run`: start one independent lane per `(function, frequency,
duration)` job. Lanes share no mutable scheduling state (the stop event is
untouched), so the run's outcome is each lane's own loop. -/
def run_jobs (jobs : List ((ℕ → Except String Unit) × ℕ × ℕ)) (fuel : ℕ) :
    List LaneResult :=
  jobs.map (fun j => thread_worker j.1 j.2.1 j.2.2 fuel 0)

/-! ## Concrete rigs used by witnesses and counterexamples -/

/-- A bioreactor with no component initialized and no attributes set. -/
def emptyBr : Bioreactor :=
  { initialized := []
    temp_sensors := none
    od_channels := none
    led_driver := none
    ring_light_driver := none
    peltier_driver := none
    stirrer_driver := none
    eyespy_boards := none
    eyespy_read_func := false
    co2_sensor_config := none
    o2_sensor_config := none
    pumps := none
    pump_configs := [] }

/-- A pump rig: the pump component initialized with an `inflow`/`outflow`
pair calibrated at 10⁷ steps/ml. -/
def pumpRig : Bioreactor :=
  { emptyBr with
    initialized := [("pumps", true)]
    pumps := some ["inflow", "outflow"]
    pump_configs := [("inflow", ⟨some "forward", some 10000000⟩),
                     ("outflow", ⟨some "reverse", some 10000000⟩)] }

/-- An OD rig whose ring light is on at `(10, 20, 30)` and whose LED driver
reports failure from `set_power` (lgpio unavailable). -/
def odRig : Bioreactor :=
  { emptyBr with
    initialized := [("led", true), ("optical_density", true), ("ring_light", true)]
    od_channels := some [("Trx", .ok 1)]
    led_driver := some ⟨false, true, 0⟩
    ring_light_driver := some ⟨true, true, 16, (10, 20, 30), true⟩ }

/-- The OD rig with a working LED driver (for the exception-path lemma). -/
def odRigOkLed : Bioreactor :=
  { odRig with led_driver := some ⟨true, true, 0⟩ }

/-- A rig whose temperature sensor reads 150 °C without raising. -/
def tempRig : Bioreactor :=
  { emptyBr with
    initialized := [("temp_sensor", true)]
    temp_sensors := some [.ok (.val 150)] }

/-! ## Helper lemmas -/

theorem pymin_pos {a b : ℚ} (ha : 0 < a) (hb : 0 < b) : 0 < pymin a b := by
  unfold pymin; split <;> assumption

theorem pymin_le_left (a b : ℚ) : pymin a b ≤ a := by
  unfold pymin
  split
  · exact le_refl a
  · exact le_of_not_le (by assumption)

theorem pymax_zero_nonneg (y : ℚ) : 0 ≤ pymax 0 y := by
  unfold pymax
  split
  · assumption
  · exact le_refl 0

theorem pymax_zero_of_nonneg {y : ℚ} (hy : 0 ≤ y) : pymax 0 y = y := by
  unfold pymax; rw [if_pos hy]

theorem pymax_zero_le {y md : ℚ} (hmd : 0 ≤ md) (hy : y ≤ md) : pymax 0 y ≤ md := by
  unfold pymax
  split
  · exact hy
  · exact hmd

theorem pyabs_of_nonneg {x : ℚ} (hx : 0 ≤ x) : pyabs x = x := by
  unfold pyabs; rw [if_neg (not_lt.2 hx)]

theorem pyabs_of_neg {x : ℚ} (hx : x < 0) : pyabs x = -x := by
  unfold pyabs; rw [if_pos hx]

/-- The lane loop's invocation schedule does not depend on the action's
outcomes: a raised (and caught) exception advances to the next tick exactly
as a normal return does. -/
theorem thread_worker_invocations_indep (a a' : ℕ → Except String Unit)
    (freq dur : ℕ) : ∀ fuel t,
    (thread_worker a freq dur fuel t).invocations =
      (thread_worker a' freq dur fuel t).invocations := by
  intro fuel
  induction fuel with
  | zero => intro t; rfl
  | succ n ih =>
    intro t
    simp only [thread_worker]
    split
    · simp [ih]
    · rfl

/-- An always-throwing action has every one of its exceptions caught by the
lane's handler: one caught error per invocation, and the lane keeps going. -/
theorem thread_worker_all_caught (e : String) (freq dur : ℕ) : ∀ fuel t,
    (thread_worker (fun _ => .error e) freq dur fuel t).caught_errors =
      (thread_worker (fun _ => .error e) freq dur fuel t).invocations := by
  intro fuel
  induction fuel with
  | zero => intro t; rfl
  | succ n ih =>
    intro t
    simp only [thread_worker]
    split
    · simp [ih]
    · rfl

/-- On the happy path (pumps initialized, pump configured with a valid
direction and calibration, non-negative rate), `change_pump` issues exactly
the command sequence for the converted velocity. -/
theorem change_pump_happy (br : Bioreactor) (p d : String) (ml s : ℚ)
    (cfg : PumpCfg) (ps : List String)
    (hinit : is_component_initialized br "pumps" = true)
    (hps : br.pumps = some ps) (hmem : p ∈ ps) (hml : 0 ≤ ml)
    (hcfg : br.pump_configs.lookup p = some cfg)
    (hdir : cfg.direction = some d)
    (hdv : d = "forward" ∨ d = "reverse")
    (hspml : cfg.steps_per_ml = some s) :
    change_pump br p ml none = .ok (velocityCmds p (pumpVelocity d ml s)) := by
  rcases hdv with rfl | rfl <;>
    simp [change_pump, hinit, hps, hmem, hcfg, hdir, hspml, not_lt.2 hml]

/-- A negative rate makes `change_pump` raise before touching any actuator
(whenever the pump component is initialized). -/
theorem change_pump_neg_rate (br : Bioreactor) (p : String) (dirO : Option String)
    (h : is_component_initialized br "pumps" = true) :
    ∃ e, change_pump br p (-1 : ℚ) dirO = .error e := by
  simp only [change_pump, h]
  cases hps : br.pumps with
  | none => exact ⟨.no_such_pump, by simp⟩
  | some ps =>
    by_cases hm : p ∈ ps
    · exact ⟨.negative_rate, by simp [hm, (by norm_num : (-1 : ℚ) < 0)]⟩
    · exact ⟨.no_such_pump, by simp [hm]⟩

/-- A `try:` block whose first `change_pump` call has rate `-1` issues no
commands and is caught once. -/
theorem tryChangePumps_neg_first (br : Bioreactor) (p : String)
    (h : is_component_initialized br "pumps" = true) :
    ∀ rest : List (String × ℚ), tryChangePumps br ((p, -1) :: rest) = ([], 1) := by
  intro rest
  obtain ⟨e, he⟩ := change_pump_neg_rate br p none h
  simp [tryChangePumps, he]

/-- The shape of a PID step command: none, stop, or a set command whose duty
is the clamp `pymax 0 (pymin max_duty (pyabs output))`. -/
theorem pidCompute_cmd_cases (st1 : PIDState) (pinit : Bool)
    (e kp ki kd dt md alpha : ℚ) :
    (pidCompute st1 pinit e kp ki kd dt md alpha).2 = none ∨
    (pidCompute st1 pinit e kp ki kd dt md alpha).2 = some .stop ∨
    ∃ x dir, (pidCompute st1 pinit e kp ki kd dt md alpha).2 =
      some (.set (pymax 0 (pymin md (pyabs x))) dir) := by
  unfold pidCompute
  dsimp only
  repeat' split
  all_goals first
    | (left; rfl)
    | (right; left; rfl)
    | (right; right; exact ⟨_, _, rfl⟩)

/-- Any duty actually commanded by the PID update block lies in
`[0, max_duty]` (for a non-negative duty ceiling). -/
theorem pidCompute_duty_bounds (st1 : PIDState) (pinit : Bool)
    (e kp ki kd dt md alpha : ℚ) (hmd : 0 ≤ md) (duty : ℚ) (dir : Direction)
    (h : (pidCompute st1 pinit e kp ki kd dt md alpha).2 = some (.set duty dir)) :
    0 ≤ duty ∧ duty ≤ md := by
  rcases pidCompute_cmd_cases st1 pinit e kp ki kd dt md alpha with
    hc | hc | ⟨x, dir2, hc⟩
  · rw [hc] at h; simp at h
  · rw [hc] at h; simp at h
  · rw [hc] at h
    simp only [Option.some_inj, PeltierCmd.set.injEq] at h
    rw [← h.1]
    exact ⟨pymax_zero_nonneg _, pymax_zero_le hmd (pymin_le_left _ _)⟩

/-- From a freshly initialized PID state, a positive error with `kp > 0`,
`ki, kd, dt ≥ 0`, `alpha ≤ 1` and a positive duty ceiling commands heating
at a positive duty. -/
theorem pidCompute_fresh_heat (e kp ki kd dt md alpha : ℚ)
    (hkp : 0 < kp) (hki : 0 ≤ ki) (hkd : 0 ≤ kd) (hdt : 0 ≤ dt)
    (ha1 : alpha ≤ 1) (hmd : 0 < md) (he : 0 < e) :
    ∃ duty, 0 < duty ∧
      (pidCompute ⟨0, 0, none, 0⟩ true e kp ki kd dt md alpha).2 =
        some (.set duty .heat) := by
  unfold pidCompute
  dsimp only
  have hraw : 0 ≤ (if 0 < dt then (e - 0) / dt else 0) := by
    split
    · exact div_nonneg (by linarith) (by linarith)
    · exact le_refl 0
  have hO : 0 < kp * e + ki * (0 + e * dt) +
      kd * (alpha * 0 + (1 - alpha) * (if 0 < dt then (e - 0) / dt else 0)) := by
    have h1 : 0 < kp * e := mul_pos hkp he
    have h2 : 0 ≤ ki * (0 + e * dt) := by
      have : 0 ≤ e * dt := mul_nonneg he.le hdt
      nlinarith
    have h3 : 0 ≤ kd * (alpha * 0 + (1 - alpha) *
        (if 0 < dt then (e - 0) / dt else 0)) := by
      have : 0 ≤ (1 - alpha) * (if 0 < dt then (e - 0) / dt else 0) :=
        mul_nonneg (by linarith) hraw
      nlinarith
    linarith
  have habs := pyabs_of_nonneg hO.le
  rw [habs]
  have hmin : 0 < pymin md (kp * e + ki * (0 + e * dt) +
      kd * (alpha * 0 + (1 - alpha) * (if 0 < dt then (e - 0) / dt else 0))) :=
    pymin_pos hmd hO
  rw [pymax_zero_of_nonneg hmin.le]
  rw [if_pos hmin, if_pos hO]
  exact ⟨_, hmin, rfl⟩

/-- From a freshly initialized PID state, a negative error with `kp > 0`,
`ki, kd, dt ≥ 0`, `alpha ≤ 1` and a positive duty ceiling commands cooling
at a positive duty. -/
theorem pidCompute_fresh_cool (e kp ki kd dt md alpha : ℚ)
    (hkp : 0 < kp) (hki : 0 ≤ ki) (hkd : 0 ≤ kd) (hdt : 0 ≤ dt)
    (ha1 : alpha ≤ 1) (hmd : 0 < md) (he : e < 0) :
    ∃ duty, 0 < duty ∧
      (pidCompute ⟨0, 0, none, 0⟩ true e kp ki kd dt md alpha).2 =
        some (.set duty .cool) := by
  unfold pidCompute
  dsimp only
  have hraw : (if 0 < dt then (e - 0) / dt else 0) ≤ 0 := by
    split
    · exact div_nonpos_of_nonpos_of_nonneg (by linarith) (by linarith)
    · exact le_refl 0
  have hO : kp * e + ki * (0 + e * dt) +
      kd * (alpha * 0 + (1 - alpha) * (if 0 < dt then (e - 0) / dt else 0)) < 0 := by
    have h1 : kp * e < 0 := mul_neg_of_pos_of_neg hkp he
    have h2 : ki * (0 + e * dt) ≤ 0 := by
      have : e * dt ≤ 0 := mul_nonpos_of_nonpos_of_nonneg he.le hdt
      nlinarith
    have h3 : kd * (alpha * 0 + (1 - alpha) *
        (if 0 < dt then (e - 0) / dt else 0)) ≤ 0 := by
      have : (1 - alpha) * (if 0 < dt then (e - 0) / dt else 0) ≤ 0 :=
        mul_nonpos_of_nonneg_of_nonpos (by linarith) hraw
      nlinarith
    linarith
  have habs := pyabs_of_neg hO
  rw [habs]
  have hmin : 0 < pymin md (-(kp * e + ki * (0 + e * dt) +
      kd * (alpha * 0 + (1 - alpha) * (if 0 < dt then (e - 0) / dt else 0)))) :=
    pymin_pos hmd (by linarith)
  rw [pymax_zero_of_nonneg hmin.le]
  rw [if_pos hmin, if_neg (not_lt.2 hO.le)]
  exact ⟨_, hmin, rfl⟩

/-- On the exception path (`body_raises = true`, `set_led` succeeded), the
`except` handler of `measure_od` does restore the ring light to its saved
state: the save/disable/restore machinery works there, isolating the
`set_led`-failure early return as the one path that skips it. -/
theorem measure_od_exception_path_restores :
    (measure_od odRigOkLed 30 "Trx" [] [] true).1.ring_light_driver.map
      RingLightDriver.current_color = some (10, 20, 30) ∧
    (measure_od odRigOkLed 30 "Trx" [] [] true).2 = none := by decide

/-! ## Claim theorems -/

/-- C1 (counterexample): on a concrete rig with an initialized
`inflow`/`outflow` pair, `balanced_flow(inflow, -1.0)` does NOT raise to its
caller: it returns normally (`.ok`), with zero actuator commands and the one
`ValueError` raised by `change_pump` caught and logged inside
`balanced_flow`'s own `try/except`. -/
theorem balanced_flow_negative_caught_counterexample :
    balanced_flow pumpRig "inflow" (-1) none = .ok ⟨[], 1⟩ := by decide

/-- C1 (amended): for every pump name and every state, `balanced_flow` with
rate `-1.0` issues zero actuator commands and returns normally — the
validation `ValueError` is raised by `change_pump` (whenever the pump
component is initialized and the pump exists) but is caught and logged
inside `balanced_flow`, not propagated to `balanced_flow`'s caller. -/
theorem balanced_flow_negative_amended (br : Bioreactor) (p : String)
    (dur : Option ℚ) :
    (∃ out, balanced_flow br p (-1) dur = .ok out ∧ out.cmds = []) ∧
    (∀ ps, is_component_initialized br "pumps" = true → br.pumps = some ps →
      p ∈ ps → change_pump br p (-1) none = .error .negative_rate) := by
  constructor
  · by_cases hinit : is_component_initialized br "pumps" = true
    · cases hps : br.pumps with
      | none => exact ⟨⟨[], 0⟩, by simp [balanced_flow, hinit, hps], rfl⟩
      | some ps =>
        cases hconv : conversePumpName p with
        | none =>
          refine ⟨⟨[], 1⟩, ?_, rfl⟩
          simp [balanced_flow, hinit, hps, hconv,
            tryChangePumps_neg_first br p hinit]
        | some c =>
          by_cases hm : p ∈ ps
          · by_cases hc : c ∈ ps
            · refine ⟨⟨[], 1⟩, ?_, rfl⟩
              simp [balanced_flow, hinit, hps, hconv, hm, hc,
                tryChangePumps_neg_first br p hinit]
            · refine ⟨⟨[], 1⟩, ?_, rfl⟩
              simp [balanced_flow, hinit, hps, hconv, hm, hc,
                tryChangePumps_neg_first br p hinit]
          · exact ⟨⟨[], 0⟩, by simp [balanced_flow, hinit, hps, hconv, hm], rfl⟩
    · have hfalse : is_component_initialized br "pumps" = false := by
        cases hb : is_component_initialized br "pumps"
        · rfl
        · exact absurd hb hinit
      exact ⟨⟨[], 0⟩, by simp [balanced_flow, hfalse], rfl⟩
  · intro ps hinit hps hmem
    simp [change_pump, hinit, hps, hmem, (by norm_num : (-1 : ℚ) < 0)]

theorem balanced_flow_negative_amended_witness :
    (∃ out, balanced_flow pumpRig "inflow" (-1) none = .ok out ∧ out.cmds = []) ∧
    change_pump pumpRig "inflow" (-1) none = .error .negative_rate :=
  ⟨(balanced_flow_negative_amended pumpRig "inflow" none).1,
   (balanced_flow_negative_amended pumpRig "inflow" none).2 ["inflow", "outflow"]
     rfl rfl (by decide)⟩

/-- C2: every sensor-read or actuator-write operation of the core interface,
called while its underlying component is marked uninitialized, returns the
disabled result (NaN for `get_temperature`, `None` for reads, `False` for
writes, no commands for `change_pump`) and does not raise. -/
theorem uninitialized_components_safe (br : Bioreactor) (idx : ℕ) (ch : String)
    (power : ℚ) (color : ℤ × ℤ × ℤ) (pixel : Option ℤ) (duty : ℚ) (fwd : FwdArg)
    (board : Option String) (p : String) (ml : ℚ) (dirO : Option String)
    (lp : ℚ) (cn : String) (ods eys : List (String × List ℚ)) (bodyR : Bool) :
    (is_component_initialized br "temp_sensor" = false →
      get_temperature br idx = Fl.nan) ∧
    (is_component_initialized br "optical_density" = false →
      read_voltage br ch = none) ∧
    (is_component_initialized br "led" = false →
      (measure_od br lp cn ods eys bodyR).2 = none) ∧
    (is_component_initialized br "co2_sensor" = false → read_co2 br = none) ∧
    (is_component_initialized br "o2_sensor" = false → read_o2 br = none) ∧
    (is_component_initialized br "eyespy_adc" = false →
      read_eyespy_adc br board = none) ∧
    (is_component_initialized br "led" = false → (set_led br power).2 = false) ∧
    (is_component_initialized br "ring_light" = false →
      (set_ring_light br color pixel).2 = false) ∧
    (is_component_initialized br "peltier_driver" = false →
      (set_peltier_power br duty fwd).2 = false) ∧
    (is_component_initialized br "stirrer" = false →
      (set_stirrer_speed br duty).2 = false) ∧
    (is_component_initialized br "pumps" = false →
      change_pump br p ml dirO = .ok []) := by
  refine ⟨fun h => ?_, fun h => ?_, fun h => ?_, fun h => ?_, fun h => ?_,
    fun h => ?_, fun h => ?_, fun h => ?_, fun h => ?_, fun h => ?_, fun h => ?_⟩
  · simp [get_temperature, h]
  · simp [read_voltage, h]
  · simp [measure_od, h]
  · simp [read_co2, h]
  · simp [read_o2, h]
  · simp [read_eyespy_adc, h]
  · simp [set_led, h]
  · simp [set_ring_light, h]
  · cases hd : br.peltier_driver <;> simp [set_peltier_power, hd, h]
  · cases hd : br.stirrer_driver <;> simp [set_stirrer_speed, hd, h]
  · simp [change_pump, h]

theorem uninitialized_components_safe_witness :
    get_temperature emptyBr 0 = Fl.nan ∧
    read_voltage emptyBr "Trx" = none ∧
    (measure_od emptyBr 30 "Trx" [] [] false).2 = none ∧
    read_co2 emptyBr = none ∧
    read_o2 emptyBr = none ∧
    read_eyespy_adc emptyBr none = none ∧
    (set_led emptyBr 50).2 = false ∧
    (set_ring_light emptyBr (10, 20, 30) none).2 = false ∧
    (set_peltier_power emptyBr 50 (.ofStr "heat")).2 = false ∧
    (set_stirrer_speed emptyBr 50).2 = false ∧
    change_pump emptyBr "inflow" 1 none = .ok [] := by
  have h := uninitialized_components_safe emptyBr 0 "Trx" 50 (10, 20, 30) none 50
    (.ofStr "heat") none "inflow" 1 none 30 "Trx" [] [] false
  exact ⟨h.1 rfl, h.2.1 rfl, h.2.2.1 rfl, h.2.2.2.1 rfl, h.2.2.2.2.1 rfl,
    h.2.2.2.2.2.1 rfl, h.2.2.2.2.2.2.1 rfl, h.2.2.2.2.2.2.2.1 rfl,
    h.2.2.2.2.2.2.2.2.1 rfl, h.2.2.2.2.2.2.2.2.2.1 rfl, h.2.2.2.2.2.2.2.2.2.2 rfl⟩

/-- C3: when the resolved current temperature is NaN, a PID invocation leaves
the stored integral and last error exactly as they were and issues no
peltier command (the NaN-skip path). -/
theorem pid_nan_skip (st : PIDState) (peltier_init : Bool) (setpoint : Fl)
    (current_temp_arg : Option Fl) (sensor_value : Fl) (kp ki kd : ℚ)
    (dt_arg elapsed : Option ℚ) (time_now max_duty derivative_alpha : ℚ)
    (h : (current_temp_arg.getD sensor_value).isNaN = true) :
    (temperature_pid_controller st peltier_init setpoint current_temp_arg
      sensor_value kp ki kd dt_arg elapsed time_now max_duty
      derivative_alpha).1.temp_integral = st.temp_integral ∧
    (temperature_pid_controller st peltier_init setpoint current_temp_arg
      sensor_value kp ki kd dt_arg elapsed time_now max_duty
      derivative_alpha).1.temp_last_error = st.temp_last_error ∧
    (temperature_pid_controller st peltier_init setpoint current_temp_arg
      sensor_value kp ki kd dt_arg elapsed time_now max_duty
      derivative_alpha).2 = none := by
  have hct : current_temp_arg.getD sensor_value = Fl.nan := by
    cases hq : current_temp_arg.getD sensor_value
    · rfl
    · rw [hq] at h; simp [Fl.isNaN] at h
  have hsub : setpoint.sub Fl.nan = Fl.nan := by cases setpoint <;> rfl
  simp only [temperature_pid_controller, hct, hsub, Fl.isNaN, Bool.true_or,
    if_true]
  cases dt_arg with
  | none => cases h1 : st.temp_last_time <;> simp [h1]
  | some d => cases elapsed <;> simp

theorem pid_nan_skip_witness :
    (temperature_pid_controller ⟨5, 2, none, 1⟩ true (.val 37) (some .nan) (.val 20)
      12 (15/1000) 0 (some 1) none 0 70 (7/10)).1.temp_integral = 5 ∧
    (temperature_pid_controller ⟨5, 2, none, 1⟩ true (.val 37) (some .nan) (.val 20)
      12 (15/1000) 0 (some 1) none 0 70 (7/10)).1.temp_last_error = 2 ∧
    (temperature_pid_controller ⟨5, 2, none, 1⟩ true (.val 37) (some .nan) (.val 20)
      12 (15/1000) 0 (some 1) none 0 70 (7/10)).2 = none :=
  pid_nan_skip ⟨5, 2, none, 1⟩ true (.val 37) (some .nan) (.val 20)
    12 (15/1000) 0 (some 1) none 0 70 (7/10) rfl

/-- C4 (counterexample): with setpoint 2 above the current temperature 1 but
an accumulated integral of −1000 (and `kp = ki = 1`), the PID output is
negative, so the commanded direction is `cool`, not `heat` — the sign claim
fails when quantified over all PID states. -/
theorem pid_sign_counterexample :
    (1 : ℚ) < 2 ∧
    (temperature_pid_controller ⟨-1000, 0, none, 0⟩ true (.val 2) (some (.val 1))
      (.val 0) 1 1 0 (some 1) none 0 70 (7/10)).2 = some (.set 70 .cool) := by
  constructor
  · norm_num
  · norm_num [temperature_pid_controller, pidCompute, Fl.sub, Fl.isNaN,
      pymax, pymin, pyabs]

/-- C4 (amended): from a freshly initialized PID state (integral, last error
and filtered derivative all zero), with `kp > 0`, `ki, kd, dt ≥ 0`,
`alpha ≤ 1` and a positive duty ceiling: `setpoint > current_temp` commands
direction `heat` and `setpoint < current_temp` commands direction `cool`. -/
theorem pid_sign_amended (sp ct kp ki kd dt max_duty alpha : ℚ) (sv : Fl)
    (tn : ℚ)
    (hkp : 0 < kp) (hki : 0 ≤ ki) (hkd : 0 ≤ kd) (hdt : 0 ≤ dt)
    (ha1 : alpha ≤ 1) (hmd : 0 < max_duty) :
    (ct < sp → ∃ duty, 0 < duty ∧
      (temperature_pid_controller ⟨0, 0, none, 0⟩ true (.val sp) (some (.val ct))
        sv kp ki kd (some dt) none tn max_duty alpha).2 =
          some (.set duty .heat)) ∧
    (sp < ct → ∃ duty, 0 < duty ∧
      (temperature_pid_controller ⟨0, 0, none, 0⟩ true (.val sp) (some (.val ct))
        sv kp ki kd (some dt) none tn max_duty alpha).2 =
          some (.set duty .cool)) := by
  have hred : temperature_pid_controller ⟨0, 0, none, 0⟩ true (.val sp)
      (some (.val ct)) sv kp ki kd (some dt) none tn max_duty alpha =
      pidCompute ⟨0, 0, none, 0⟩ true (sp - ct) kp ki kd dt max_duty alpha := by
    simp [temperature_pid_controller, Fl.sub, Fl.isNaN]
  rw [hred]
  exact ⟨fun h => pidCompute_fresh_heat (sp - ct) kp ki kd dt max_duty alpha
      hkp hki hkd hdt ha1 hmd (sub_pos.2 h),
    fun h => pidCompute_fresh_cool (sp - ct) kp ki kd dt max_duty alpha
      hkp hki hkd hdt ha1 hmd (sub_neg.2 h)⟩

theorem pid_sign_amended_witness :
    (∃ duty, 0 < duty ∧
      (temperature_pid_controller ⟨0, 0, none, 0⟩ true (.val 2) (some (.val 1))
        (.val 0) 12 (15/1000) 0 (some 1) none 0 70 (7/10)).2 =
          some (.set duty .heat)) ∧
    (∃ duty, 0 < duty ∧
      (temperature_pid_controller ⟨0, 0, none, 0⟩ true (.val 1) (some (.val 2))
        (.val 0) 12 (15/1000) 0 (some 1) none 0 70 (7/10)).2 =
          some (.set duty .cool)) :=
  ⟨(pid_sign_amended 2 1 12 (15/1000) 0 1 70 (7/10) (.val 0) 0 (by norm_num)
      (by norm_num) (by norm_num) (by norm_num) (by norm_num) (by norm_num)).1
    (by norm_num),
   (pid_sign_amended 1 2 12 (15/1000) 0 1 70 (7/10) (.val 0) 0 (by norm_num)
      (by norm_num) (by norm_num) (by norm_num) (by norm_num) (by norm_num)).2
    (by norm_num)⟩

/-- C5: whatever the gains, dt, inputs and stored PID state, any duty the
controller actually commands to the peltier lies in `[0, max_duty]` (for a
non-negative `max_duty`). -/
theorem pid_duty_clamped (st : PIDState) (peltier_init : Bool) (setpoint : Fl)
    (current_temp_arg : Option Fl) (sensor_value : Fl) (kp ki kd : ℚ)
    (dt_arg elapsed : Option ℚ) (time_now max_duty derivative_alpha : ℚ)
    (hmd : 0 ≤ max_duty) (duty : ℚ) (dir : Direction)
    (h : (temperature_pid_controller st peltier_init setpoint current_temp_arg
      sensor_value kp ki kd dt_arg elapsed time_now max_duty
      derivative_alpha).2 = some (.set duty dir)) :
    0 ≤ duty ∧ duty ≤ max_duty := by
  simp only [temperature_pid_controller] at h
  split at h
  · simp at h
  · split at h
    · simp at h
    · exact pidCompute_duty_bounds _ _ _ _ _ _ _ _ _ hmd _ _ h

theorem pid_duty_clamped_witness :
    (temperature_pid_controller ⟨0, 0, none, 0⟩ true (.val 2) (some (.val 1))
      (.val 0) 1 0 0 (some 1) none 0 70 (7/10)).2 = some (.set 1 .heat) ∧
    (0 : ℚ) ≤ 1 ∧ (1 : ℚ) ≤ 70 := by
  have hcmd : (temperature_pid_controller ⟨0, 0, none, 0⟩ true (.val 2)
      (some (.val 1)) (.val 0) 1 0 0 (some 1) none 0 70 (7/10)).2 =
      some (.set 1 .heat) := by
    norm_num [temperature_pid_controller, pidCompute, Fl.sub, Fl.isNaN,
      pymax, pymin, pyabs]
  exact ⟨hcmd, pid_duty_clamped ⟨0, 0, none, 0⟩ true (.val 2) (some (.val 1))
    (.val 0) 1 0 0 (some 1) none 0 70 (7/10) (by norm_num) 1 .heat hcmd⟩

/-- C6 (code bug): on a rig whose ring light starts on at `(10, 20, 30)` and
whose LED driver reports failure from `set_power`, `measure_od` takes the
early `return None` after saving and forcing the ring light off — leaving the
ring light at `(0, 0, 0)` instead of restoring `(10, 20, 30)`, contrary to
the claimed (and documented) save/disable/restore-on-every-path behavior. -/
theorem measure_od_set_led_failure_leaves_ring_off :
    odRig.ring_light_driver.map RingLightDriver.current_color =
      some (10, 20, 30) ∧
    (measure_od odRig 30 "Trx" [] [] false).1.ring_light_driver.map
      RingLightDriver.current_color = some (0, 0, 0) ∧
    (measure_od odRig 30 "Trx" [] [] false).2 = none := by decide

/-- C7: a job whose action always throws has every exception caught inside
its own lane (one caught error per invocation, the lane continuing to its
next tick), and the invocation counts of both lanes — in particular the
other job's — are exactly what they are with a never-throwing job. -/
theorem scheduler_fault_isolation (e : String) (a2 : ℕ → Except String Unit)
    (f1 d1 f2 d2 fuel : ℕ) :
    ((run_jobs [(fun _ => Except.error e, f1, d1), (a2, f2, d2)] fuel).map
        LaneResult.invocations =
      (run_jobs [(fun _ => Except.ok (), f1, d1), (a2, f2, d2)] fuel).map
        LaneResult.invocations) ∧
    (thread_worker (fun _ => Except.error e) f1 d1 fuel 0).caught_errors =
      (thread_worker (fun _ => Except.error e) f1 d1 fuel 0).invocations := by
  refine ⟨?_, thread_worker_all_caught e f1 d1 fuel 0⟩
  simp [run_jobs, thread_worker_invocations_indep
    (fun _ => Except.error e) (fun _ => Except.ok ()) f1 d1 fuel 0]

/-- C8: on the happy path, `change_pump` converts ml/sec to
`steps_per_sec = 8 * floor(ml_per_sec * steps_per_ml / 8)`, with the
commanded velocity positive for `forward` and negated for `reverse`, and
issues exactly the corresponding command sequence. -/
theorem change_pump_steps_conversion (br : Bioreactor) (p d : String) (ml s : ℚ)
    (cfg : PumpCfg) (ps : List String)
    (hinit : is_component_initialized br "pumps" = true)
    (hps : br.pumps = some ps) (hmem : p ∈ ps) (hml : 0 ≤ ml)
    (hcfg : br.pump_configs.lookup p = some cfg)
    (hdir : cfg.direction = some d)
    (hdv : d = "forward" ∨ d = "reverse")
    (hspml : cfg.steps_per_ml = some s) (hs : 0 ≤ s) :
    change_pump br p ml none = .ok (velocityCmds p (pumpVelocity d ml s)) ∧
    pumpVelocity d ml s = (if d = "forward" then 1 else -1) * (8 * ⌊ml * s / 8⌋) := by
  refine ⟨change_pump_happy br p d ml s cfg ps hinit hps hmem hml hcfg hdir hdv
    hspml, ?_⟩
  have h8 : (0 : ℚ) ≤ ml * s / 8 :=
    div_nonneg (mul_nonneg hml hs) (by norm_num)
  unfold pumpVelocity pytrunc
  rw [if_pos h8]
  rcases hdv with rfl | rfl
  · rw [if_pos rfl, if_pos rfl]; ring
  · rw [if_neg (by decide), if_neg (by decide)]; ring

theorem change_pump_steps_conversion_witness :
    change_pump pumpRig "inflow" (1/250) none =
      .ok [("inflow", .energize), ("inflow", .exit_safe_start),
           ("inflow", .set_target_velocity 40000)] := by
  have h := (change_pump_steps_conversion pumpRig "inflow" "forward" (1/250)
    10000000 ⟨some "forward", some 10000000⟩ ["inflow", "outflow"] rfl rfl
    (by decide) (by norm_num) rfl rfl (Or.inl rfl) rfl (by norm_num)).1
  rw [h]
  norm_num [velocityCmds, pumpVelocity, pytrunc, Int.floor_eq_iff]

/-- C9: on the happy path, a computed velocity of exactly zero (in
particular `change_pump(p, 0.0)`) yields exactly one de-energize command and
no set-velocity command, while a non-zero velocity yields energize, exit
safe start, then the set-velocity command. -/
theorem change_pump_zero_deenergizes (br : Bioreactor) (p d : String) (ml s : ℚ)
    (cfg : PumpCfg) (ps : List String)
    (hinit : is_component_initialized br "pumps" = true)
    (hps : br.pumps = some ps) (hmem : p ∈ ps) (hml : 0 ≤ ml)
    (hcfg : br.pump_configs.lookup p = some cfg)
    (hdir : cfg.direction = some d)
    (hdv : d = "forward" ∨ d = "reverse")
    (hspml : cfg.steps_per_ml = some s) :
    (pumpVelocity d ml s = 0 → change_pump br p ml none = .ok [(p, .deenergize)]) ∧
    (pumpVelocity d ml s ≠ 0 → change_pump br p ml none =
      .ok [(p, .energize), (p, .exit_safe_start),
           (p, .set_target_velocity (pumpVelocity d ml s))]) ∧
    (ml = 0 → pumpVelocity d ml s = 0) := by
  have hmain := change_pump_happy br p d ml s cfg ps hinit hps hmem hml hcfg
    hdir hdv hspml
  refine ⟨fun hv => ?_, fun hv => ?_, fun hml0 => ?_⟩
  · rw [hmain]; simp only [velocityCmds]; rw [if_pos hv]
  · rw [hmain]; simp only [velocityCmds]; rw [if_neg hv]
  · subst hml0
    simp [pumpVelocity, pytrunc]

theorem change_pump_zero_deenergizes_witness :
    change_pump pumpRig "inflow" 0 none = .ok [("inflow", .deenergize)] := by
  have h := change_pump_zero_deenergizes pumpRig "inflow" "forward" 0 10000000
    ⟨some "forward", some 10000000⟩ ["inflow", "outflow"] rfl rfl (by decide)
    (le_refl 0) rfl rfl (Or.inl rfl) rfl
  exact h.1 (h.2.2 rfl)

/-- C10: a temperature reading that succeeds and is a non-NaN value strictly
below 0 °C or strictly above 100 °C is discarded by `get_temperature`, which
returns NaN instead of the measured value. -/
theorem get_temperature_discards_out_of_bounds (br : Bioreactor) (idx : ℕ)
    (sensors : List (Except Unit Fl)) (x : ℚ)
    (hinit : is_component_initialized br "temp_sensor" = true)
    (hs : br.temp_sensors = some sensors)
    (hread : sensors[idx]? = some (.ok (.val x)))
    (hx : x < 0 ∨ 100 < x) :
    get_temperature br idx = Fl.nan := by
  simp [get_temperature, hinit, hs, hread, if_pos hx]

theorem get_temperature_discards_out_of_bounds_witness :
    get_temperature tempRig 0 = Fl.nan :=
  get_temperature_discards_out_of_bounds tempRig 0 [.ok (.val 150)] 150
    rfl rfl rfl (Or.inr (by norm_num))
